import Mathlib

/-!
Verification of the Darjeeling live hazard map pipeline
(source: hazard-map-darj.py).

The Python source is shallowly embedded: machine floats are modelled as
rationals, fallible steps return Except or Option, and the network fetch
results are passed in as explicit inputs. Python truthiness of a float is
modelled as being nonzero; truthiness of an optional value is being
present and nonzero (resp. a nonempty string). The builtin round(x, 1)
is modelled as round-half-to-even at one decimal place.
-/

set_option autoImplicit false

namespace DarjHazard

/-- Round-half-to-even on rationals, the tie-breaking rule of Python round. -/
def roundHalfEven (x : ℚ) : ℤ :=
  let f := Int.floor x
  let r := x - f
  if r < 1/2 then f
  else if 1/2 < r then f + 1
  else if f % 2 = 0 then f else f + 1

/-- Python round(x, 1): scale by 10, round half to even, scale back. -/
def pyRound1 (x : ℚ) : ℚ :=
  (roundHalfEven (10 * x) : ℚ) / 10

/-- pm25_to_category, lines 81 to 89 of the source. A missing value maps
to the string N/A; band upper bounds are inclusive. -/
def pm25_to_category (pm25 : Option ℚ) : String :=
  match pm25 with
  | none => "N/A"
  | some v =>
    if v ≤ 12 then "Good"
    else if v ≤ 35.4 then "Moderate"
    else if v ≤ 55.4 then "Unhealthy for Sensitive Groups"
    else if v ≤ 150.4 then "Unhealthy"
    else if v ≤ 250.4 then "Very Unhealthy"
    else "Hazardous"

/-- The label branch of compute_landslide_score, lines 160 to 164. -/
def landslide_label (score : ℚ) : String :=
  if score ≥ 85 then "confirm 99%"
  else if score ≥ 60 then "high"
  else if score ≥ 35 then "mid"
  else "no"

/-- The numeric part of compute_landslide_score, lines 154 to 158:
humidity term (guarded by Python truthiness of hum, i.e. hum nonzero),
pressure-drop term (only when strictly positive), elevation term, then
clamp to the interval from 0 to 100. -/
def landslide_raw (hum pres_drop_3h elev_m : ℚ) : ℚ :=
  let score1 : ℚ := if hum ≠ 0 then 0 + max 0 (hum - 60) * 0.8 else 0
  let score2 : ℚ := if pres_drop_3h > 0 then score1 + min 30 (pres_drop_3h * 8) else score1
  let score3 : ℚ := score2 + min 15 ((elev_m - 500) / 100)
  max 0 (min 100 score3)

/-- compute_landslide_score, lines 152 to 165, on plain floats. The Python
default for elev_m is 2000; call sites of this embedding pass it
explicitly. Returns the rounded score and the label (the label is
computed from the unrounded clamped score, as in the source). -/
def compute_landslide_score (hum pres_drop_3h elev_m : ℚ) : ℚ × String :=
  (pyRound1 (landslide_raw hum pres_drop_3h elev_m),
   landslide_label (landslide_raw hum pres_drop_3h elev_m))

/-- compute_landslide_score with optional (possibly None) inputs, following
Python semantics statement by statement: the line guarded by truthiness of
hum cannot raise and treats None like 0, while the comparison
pres_drop_3h greater than 0 raises a TypeError when pres_drop_3h is None. -/
def compute_landslide_score_py (hum pres_drop_3h : Option ℚ) (elev_m : ℚ) :
    Except String (ℚ × String) :=
  match pres_drop_3h with
  | none => Except.error "TypeError: unorderable types NoneType and int"
  | some p => Except.ok (compute_landslide_score (hum.getD 0) p elev_m)

/-- rainfall_scale, lines 167 to 172 of the source. -/
def rainfall_scale (mm : ℚ) : String :=
  if mm < 0.2 then "No"
  else if mm < 5 then "Mid"
  else if mm < 20 then "High"
  else "Confirm 99%"

/-- One entry of the ThingSpeak feeds array; field1 is its only used key,
an optional string value. -/
structure TSFeed where
  field1 : Option String
deriving DecidableEq

/-- The ThingSpeak response: HTTP status code and the feeds array. A
missing or null feeds key is modelled as the empty list (both are falsy
in Python). -/
structure TSResp where
  status_code : Nat
  feeds : List TSFeed
deriving DecidableEq

/-- The river classification branch of fetch_teesta_level, lines 132 to 135. -/
def teestaStatusOf (val : ℚ) : String :=
  if val > 400 then "FLOOD WARNING"
  else if val > 300 then "HIGH"
  else if val < 100 then "LOW"
  else "NORMAL"

/-- Case-insensitive substring scan of the CWC page text for the word
teesta, modelling the Python membership test on the lowercased body. -/
def cwcMentionsTeesta (text : String) : Bool :=
  decide (2 ≤ (text.toLower.splitOn "teesta").length)

/-- fetch_teesta_level, lines 118 to 148. The two network fetches and the
Python float conversion are inputs: primary is the ThingSpeak request
outcome, secondary the CWC page request outcome, pyfloat the builtin
float applied to the field1 string (raising is an error value). Any
raised step falls through to the next step; the result is the triple
(value, unit label, status). -/
def fetch_teesta_level (primary : Except Unit TSResp)
    (pyfloat : String → Except Unit ℚ)
    (secondary : Except Unit String) : Option ℚ × Option String × String :=
  let step2 : Option ℚ × Option String × String :=
    match secondary with
    | Except.ok text =>
      if cwcMentionsTeesta text then (none, some "CWC FFS mention", "SEE_CWC")
      else (none, none, "NO_PUBLIC_RIVER_DATA")
    | Except.error _ => (none, none, "NO_PUBLIC_RIVER_DATA")
  match primary with
  | Except.error _ => step2
  | Except.ok r =>
    if r.status_code = 200 then
      match r.feeds with
      | [] => step2
      | f :: _ =>
        match f.field1 with
        | none => step2
        | some s =>
          if s = "" then step2
          else
            match pyfloat s with
            | Except.error _ => step2
            | Except.ok val => (some val, some "cm (ThingSpeak)", teestaStatusOf val)
    else step2

/-- The condition under which the primary ThingSpeak step of
fetch_teesta_level yields a numeric value: request succeeded with status
200, the feeds array is truthy (nonempty), its first entry has a truthy
field1 (present, nonempty string), and float conversion succeeds. -/
def primaryNumeric (primary : Except Unit TSResp)
    (pyfloat : String → Except Unit ℚ) : Option ℚ :=
  match primary with
  | Except.error _ => none
  | Except.ok r =>
    if r.status_code = 200 then
      match r.feeds with
      | [] => none
      | f :: _ =>
        match f.field1 with
        | none => none
        | some s =>
          if s = "" then none
          else
            match pyfloat s with
            | Except.error _ => none
            | Except.ok val => some val
    else none

/-- The condition under which the secondary CWC step of fetch_teesta_level
reports a mention: the page request succeeded and the body contains the
river name case-insensitively. -/
def secondaryMentions (secondary : Except Unit String) : Bool :=
  match secondary with
  | Except.ok text => cwcMentionsTeesta text
  | Except.error _ => false

/-- The hourly weather series of one Open-Meteo response: the time axis
and the four parallel numeric arrays used by gather_bubble_data. -/
structure Hourly where
  time : List String
  precipitation : List ℚ
  relativehumidity_2m : List ℚ
  pressure_msl : List ℚ
  temperature_2m : List ℚ
deriving DecidableEq

/-- The hourly air-quality series of one Open-Meteo response. -/
structure AqHourly where
  time : List String
  pm2_5 : List ℚ
  pm10 : List ℚ
deriving DecidableEq

/-- One entry of the results list built by gather_bubble_data,
lines 216 to 237. -/
structure BubbleResult where
  name : String
  lat : ℚ
  lon : ℚ
  temp : Option ℚ
  humid : Option ℚ
  pressure : Option ℚ
  precip_now : ℚ
  precip_next1 : ℚ
  pressure_drop_3h : ℚ
  landslide_score : ℚ
  landslide_label : String
  pm25 : Option ℚ
  pm10 : Option ℚ
  aqi_category : String
  error : Option String
deriving DecidableEq

/-- The placeholder entry appended when processing of a point raises,
lines 228 to 237: zero or absent metrics, the neutral hazard default
(score 0, label no, AQI category N/A) and the error description. -/
def placeholder (b : String × ℚ × ℚ) (e : String) : BubbleResult :=
  ⟨b.1, b.2.1, b.2.2, none, none, none, 0, 0, 0, 0, "no", none, none, "N/A", some e⟩

/-- Time alignment, lines 189 to 192: index of the current-hour key in
the time axis, defaulting to 0 when the key is absent (list.index raises
and the except clause sets idx to 0). -/
def alignIdx (times : List String) (nowKey : String) : Nat :=
  (times.findIdx? (fun t => t == nowKey)).getD 0

/-- The body of the per-point loop of gather_bubble_data, lines 181 to 237.
The two fetches are inputs: wres is the weather request outcome (a raised
fetch carries its message), ares the air-quality request outcome. Indexing
a series out of range raises, which the outer handler converts into a
placeholder entry; the inner air-quality handler instead degrades pm25 and
pm10 to absent. -/
def processPoint (nowKey : String) (b : String × ℚ × ℚ)
    (wres : Except String Hourly) (ares : Except String AqHourly) : BubbleResult :=
  match wres with
  | Except.error e => placeholder b e
  | Except.ok hourly =>
    let idx := alignIdx hourly.time nowKey
    match hourly.precipitation[idx]? with
    | none => placeholder b "IndexError: list index out of range"
    | some precip_now =>
      let precip_next1 : ℚ :=
        if idx + 1 < hourly.precipitation.length then hourly.precipitation.getD (idx + 1) 0 else 0
      match hourly.relativehumidity_2m[idx]? with
      | none => placeholder b "IndexError: list index out of range"
      | some hum =>
        match hourly.pressure_msl[idx]? with
        | none => placeholder b "IndexError: list index out of range"
        | some pres =>
          match hourly.temperature_2m[idx]? with
          | none => placeholder b "IndexError: list index out of range"
          | some temp =>
            let presPrevStep : Except String (Option ℚ) :=
              if 3 ≤ idx then
                match hourly.pressure_msl[idx - 3]? with
                | some v => Except.ok (some v)
                | none => Except.error "IndexError: list index out of range"
              else Except.ok none
            match presPrevStep with
            | Except.error e => placeholder b e
            | Except.ok pres_prev =>
              let pres_drop : ℚ :=
                match pres_prev with
                | some v => if v ≠ 0 then v - pres else 0
                | none => 0
              let pm : Option ℚ × Option ℚ :=
                match ares with
                | Except.error _ => (none, none)
                | Except.ok ah =>
                  match ah.time.findIdx? (fun t => t == nowKey) with
                  | none => (none, none)
                  | some aidx =>
                    match ah.pm2_5[aidx]?, ah.pm10[aidx]? with
                    | some a, some c => (some a, some c)
                    | _, _ => (none, none)
              let sl : ℚ × String := compute_landslide_score hum pres_drop 2000
              ⟨b.1, b.2.1, b.2.2, some temp, some hum, some pres, precip_now,
               precip_next1, pres_drop, sl.1, sl.2, pm.1, pm.2,
               pm25_to_category pm.1, none⟩

/-- gather_bubble_data, lines 176 to 239: one results entry per registry
point, in registry order, each produced independently by the per-point
body on that point and its own fetch outcomes. -/
def gather_bubble_data (nowKey : String) (bubbles : List (String × ℚ × ℚ))
    (wf : String × ℚ × ℚ → Except String Hourly)
    (af : String × ℚ × ℚ → Except String AqHourly) : List BubbleResult :=
  bubbles.map (fun b => processPoint nowKey b (wf b) (af b))

/-- Concrete weather series used to exercise the aggregator: the time axis
holds only the current-hour key K. -/
def cOkHourly : Hourly := ⟨["K"], [0], [80], [1000], [12]⟩

/-- Concrete two-point registry used to exercise the aggregator. -/
def cBubbles : List (String × ℚ × ℚ) := [("A", 1, 2), ("B", 3, 4)]

/-- Concrete weather fetch: raises for point A, succeeds for the rest. -/
def cWf : String × ℚ × ℚ → Except String Hourly :=
  fun b => if b.1 = "A" then Except.error "boom" else Except.ok cOkHourly

/-- Concrete air-quality fetch that always raises. -/
def cAf : String × ℚ × ℚ → Except String AqHourly :=
  fun _ => Except.error "aq down"

/-- Concrete weather series whose current-hour key sits at index 3, with a
nonzero pressure three hours earlier. -/
def cAmendHourly : Hourly :=
  ⟨["t0", "t1", "t2", "K"], [1, 1, 1, 2], [70, 70, 70, 70],
   [1000, 990, 990, 995], [10, 10, 10, 10]⟩

theorem floor_le_roundHalfEven (x : ℚ) : Int.floor x ≤ roundHalfEven x := by
  simp only [roundHalfEven]
  split_ifs <;> omega

theorem roundHalfEven_le_floor_add_one (x : ℚ) : roundHalfEven x ≤ Int.floor x + 1 := by
  simp only [roundHalfEven]
  split_ifs <;> omega

theorem roundHalfEven_le_ceil (x : ℚ) : roundHalfEven x ≤ Int.ceil x := by
  simp only [roundHalfEven]
  split_ifs with h1 h2 h3
  · exact Int.floor_le_ceil x
  · have hx : (Int.floor x : ℚ) < x := by linarith
    have := Int.lt_ceil.mpr hx
    omega
  · exact Int.floor_le_ceil x
  · have hx : (Int.floor x : ℚ) < x := by linarith
    have := Int.lt_ceil.mpr hx
    omega

theorem roundHalfEven_mono {x y : ℚ} (hxy : x ≤ y) :
    roundHalfEven x ≤ roundHalfEven y := by
  rcases lt_or_le (Int.floor x) (Int.floor y) with hf | hf
  · have h1 := roundHalfEven_le_floor_add_one x
    have h2 := floor_le_roundHalfEven y
    omega
  · have hfe : Int.floor x = Int.floor y :=
      le_antisymm (Int.floor_le_floor hxy) hf
    simp only [roundHalfEven, hfe]
    split_ifs <;> first | omega | (exfalso; linarith)

theorem pyRound1_mono {x y : ℚ} (h : x ≤ y) : pyRound1 x ≤ pyRound1 y := by
  unfold pyRound1
  have h10 : (10 : ℚ) * x ≤ 10 * y := by linarith
  have hr := roundHalfEven_mono h10
  have hc : ((roundHalfEven (10 * x) : ℤ) : ℚ) ≤ ((roundHalfEven (10 * y) : ℤ) : ℚ) := by
    exact_mod_cast hr
  linarith

theorem intCast_le_pyRound1 (n : ℤ) (x : ℚ) (h : (n : ℚ) ≤ x) :
    (n : ℚ) ≤ pyRound1 x := by
  unfold pyRound1
  have h1 : (10 * n : ℤ) ≤ Int.floor ((10 : ℚ) * x) := by
    apply Int.le_floor.mpr
    push_cast
    linarith
  have h2 := floor_le_roundHalfEven ((10 : ℚ) * x)
  have h4 : ((10 * n : ℤ) : ℚ) ≤ ((roundHalfEven ((10 : ℚ) * x) : ℤ) : ℚ) := by
    exact_mod_cast le_trans h1 h2
  rw [le_div_iff₀ (by norm_num : (0 : ℚ) < 10)]
  push_cast at h4 ⊢
  linarith

theorem pyRound1_le_intCast (n : ℤ) (x : ℚ) (h : x ≤ (n : ℚ)) :
    pyRound1 x ≤ (n : ℚ) := by
  unfold pyRound1
  have h1 : Int.ceil ((10 : ℚ) * x) ≤ 10 * n := by
    apply Int.ceil_le.mpr
    push_cast
    linarith
  have h2 := roundHalfEven_le_ceil ((10 : ℚ) * x)
  have h4 : ((roundHalfEven ((10 : ℚ) * x) : ℤ) : ℚ) ≤ ((10 * n : ℤ) : ℚ) := by
    exact_mod_cast le_trans h2 h1
  rw [div_le_iff₀ (by norm_num : (0 : ℚ) < 10)]
  push_cast at h4 ⊢
  linarith

theorem landslide_raw_nonneg (h p e : ℚ) : 0 ≤ landslide_raw h p e := by
  simp only [landslide_raw]
  exact le_max_left _ _

theorem landslide_raw_le_100 (h p e : ℚ) : landslide_raw h p e ≤ 100 := by
  simp only [landslide_raw]
  exact max_le (by norm_num) (min_le_left _ _)

theorem landslide_raw_15_le (h p : ℚ) : 15 ≤ landslide_raw h p 2000 := by
  simp only [landslide_raw]
  set s1 : ℚ := if h ≠ 0 then 0 + max 0 (h - 60) * 0.8 else 0 with hs1
  set s2 : ℚ := if p > 0 then s1 + min 30 (p * 8) else s1 with hs2
  have h1 : 0 ≤ s1 := by
    rw [hs1]
    split_ifs
    · positivity
    · exact le_rfl
  have h2 : 0 ≤ s2 := by
    rw [hs2]
    split_ifs with hp
    · have : (0 : ℚ) ≤ min 30 (p * 8) := le_min (by norm_num) (by linarith)
      linarith
    · linarith
  have e3 : min (15 : ℚ) ((2000 - 500) / 100) = 15 := by norm_num
  rw [e3]
  refine le_trans ?_ (le_max_right _ _)
  exact le_min (by norm_num) (by linarith)

theorem landslide_score_15_le (h p : ℚ) : 15 ≤ (compute_landslide_score h p 2000).1 := by
  have h1 := landslide_raw_15_le h p
  have h2 := intCast_le_pyRound1 15 (landslide_raw h p 2000) (by exact_mod_cast h1)
  exact_mod_cast h2

theorem landslide_raw_mono_hum {h₁ h₂ : ℚ} (p : ℚ) (h60 : 60 ≤ h₁) (hh : h₁ ≤ h₂) :
    landslide_raw h₁ p 2000 ≤ landslide_raw h₂ p 2000 := by
  simp only [landslide_raw]
  have hx1 : h₁ ≠ 0 := by intro hz; rw [hz] at h60; norm_num at h60
  have hx2 : h₂ ≠ 0 := by intro hz; rw [hz] at hh; nlinarith
  rw [if_pos hx1, if_pos hx2]
  have hm : max 0 (h₁ - 60) * 0.8 ≤ max 0 (h₂ - 60) * 0.8 := by
    have := max_le_max (le_refl (0 : ℚ)) (by linarith : h₁ - 60 ≤ h₂ - 60)
    nlinarith [le_max_left (0 : ℚ) (h₁ - 60)]
  split_ifs with hp
  · exact max_le_max le_rfl (min_le_min le_rfl (by linarith))
  · exact max_le_max le_rfl (min_le_min le_rfl (by linarith))

theorem landslide_raw_mono_pres {p₁ p₂ : ℚ} (h : ℚ) (hp0 : 0 < p₁) (hp : p₁ ≤ p₂) :
    landslide_raw h p₁ 2000 ≤ landslide_raw h p₂ 2000 := by
  simp only [landslide_raw]
  rw [if_pos (show p₁ > 0 from hp0), if_pos (show p₂ > 0 from lt_of_lt_of_le hp0 hp)]
  have hm : min (30 : ℚ) (p₁ * 8) ≤ min 30 (p₂ * 8) :=
    min_le_min le_rfl (by linarith)
  split_ifs with hh
  · exact max_le_max le_rfl (min_le_min le_rfl (by linarith))
  · exact max_le_max le_rfl (min_le_min le_rfl (by linarith))

/-- C5: the landslide label bands are exhaustive and non-overlapping:
every score in the interval from 0 to 100 maps to exactly one of the four
labels, with thresholds 85, 60, 35 evaluated highest band first and
inclusive on the lower bound, so the boundary scores 35, 60 and 85 map to
the higher band (mid, high, confirm respectively). -/
theorem landslide_label_bands (s : ℚ) (h0 : 0 ≤ s) (h100 : s ≤ 100) :
    ((landslide_label s = "confirm 99%" ↔ 85 ≤ s)
      ∧ (landslide_label s = "high" ↔ 60 ≤ s ∧ s < 85)
      ∧ (landslide_label s = "mid" ↔ 35 ≤ s ∧ s < 60)
      ∧ (landslide_label s = "no" ↔ s < 35))
    ∧ landslide_label 35 = "mid"
    ∧ landslide_label 60 = "high"
    ∧ landslide_label 85 = "confirm 99%" := by
  refine ⟨?_, by norm_num [landslide_label], by norm_num [landslide_label],
    by norm_num [landslide_label]⟩
  unfold landslide_label
  split_ifs with h1 h2 h3 <;>
    refine ⟨?_, ?_, ?_, ?_⟩ <;>
    constructor <;>
    intro hs <;>
    first
      | rfl
      | linarith
      | exact absurd hs (by decide)
      | exact ⟨by linarith, by linarith⟩
      | (exfalso; obtain ⟨hs1, hs2⟩ := hs; linarith)
      | (exfalso; linarith)

/-- Witness for C5 at the boundary score 35. -/
theorem landslide_label_bands_witness :
    (0 : ℚ) ≤ 35 ∧ (35 : ℚ) ≤ 100 ∧ landslide_label 35 = "mid" :=
  ⟨by norm_num, by norm_num,
    (landslide_label_bands 35 (by norm_num) (by norm_num)).2.1⟩

/-- C6: on humidity 80 and three-hour pressure drop 2, with the default
elevation 2000, compute_landslide_score returns the score 47 (16 from
humidity, 16 from the pressure drop, 15 from elevation) and the label mid. -/
theorem landslide_score_example_47 :
    compute_landslide_score 80 2 2000 = (47, "mid") := by
  have hraw : landslide_raw 80 2 2000 = 47 := by
    norm_num [landslide_raw, max_def, min_def]
  show (pyRound1 (landslide_raw 80 2 2000), landslide_label (landslide_raw 80 2 2000))
      = (47, "mid")
  rw [hraw]
  norm_num [pyRound1, roundHalfEven, landslide_label]

/-- C7: the returned landslide score always lies between 0 and 100, is
monotone non-decreasing in humidity at or above 60 for a fixed pressure
drop, and monotone non-decreasing in the pressure drop above 0 for a
fixed humidity (default elevation 2000). -/
theorem landslide_score_range_mono (h p h₁ h₂ p₁ p₂ : ℚ)
    (hh60 : 60 ≤ h₁) (hh : h₁ ≤ h₂) (hp0 : 0 < p₁) (hp : p₁ ≤ p₂) :
    (0 ≤ (compute_landslide_score h p 2000).1
      ∧ (compute_landslide_score h p 2000).1 ≤ 100)
    ∧ (compute_landslide_score h₁ p 2000).1 ≤ (compute_landslide_score h₂ p 2000).1
    ∧ (compute_landslide_score h p₁ 2000).1 ≤ (compute_landslide_score h p₂ 2000).1 := by
  have key : ∀ a b : ℚ,
      (compute_landslide_score a b 2000).1 = pyRound1 (landslide_raw a b 2000) :=
    fun _ _ => rfl
  refine ⟨⟨?_, ?_⟩, ?_, ?_⟩
  · rw [key]
    have := intCast_le_pyRound1 0 (landslide_raw h p 2000)
      (by exact_mod_cast landslide_raw_nonneg h p 2000)
    exact_mod_cast this
  · rw [key]
    have := pyRound1_le_intCast 100 (landslide_raw h p 2000)
      (by exact_mod_cast landslide_raw_le_100 h p 2000)
    exact_mod_cast this
  · rw [key, key]
    exact pyRound1_mono (landslide_raw_mono_hum p hh60 hh)
  · rw [key, key]
    exact pyRound1_mono (landslide_raw_mono_pres h hp0 hp)

/-- Witness for C7 at humidity 80 versus 90 and pressure drop 1 versus 2. -/
theorem landslide_score_range_mono_witness :
    (60 : ℚ) ≤ 80 ∧ (80 : ℚ) ≤ 90 ∧ (0 : ℚ) < 1 ∧ (1 : ℚ) ≤ 2
    ∧ ((0 ≤ (compute_landslide_score 70 3 2000).1
        ∧ (compute_landslide_score 70 3 2000).1 ≤ 100)
      ∧ (compute_landslide_score 80 3 2000).1 ≤ (compute_landslide_score 90 3 2000).1
      ∧ (compute_landslide_score 70 1 2000).1 ≤ (compute_landslide_score 70 2 2000).1) :=
  ⟨by norm_num, by norm_num, by norm_num, by norm_num,
    landslide_score_range_mono 70 3 80 90 1 2
      (by norm_num) (by norm_num) (by norm_num) (by norm_num)⟩

/-- C8: the AQI categorisation maps a missing value to the unknown
category (the string N/A) and otherwise classifies PM2.5 into six bands
with inclusive upper bounds at 12, 35.4, 55.4, 150.4 and 250.4; in
particular 12 is Good, 12.1 is Moderate and 500 is Hazardous. -/
theorem pm25_category_bands (x : ℚ) :
    pm25_to_category none = "N/A"
    ∧ (x ≤ 12 → pm25_to_category (some x) = "Good")
    ∧ (12 < x → x ≤ 35.4 → pm25_to_category (some x) = "Moderate")
    ∧ (35.4 < x → x ≤ 55.4 → pm25_to_category (some x) = "Unhealthy for Sensitive Groups")
    ∧ (55.4 < x → x ≤ 150.4 → pm25_to_category (some x) = "Unhealthy")
    ∧ (150.4 < x → x ≤ 250.4 → pm25_to_category (some x) = "Very Unhealthy")
    ∧ (250.4 < x → pm25_to_category (some x) = "Hazardous")
    ∧ pm25_to_category (some 12) = "Good"
    ∧ pm25_to_category (some 12.1) = "Moderate"
    ∧ pm25_to_category (some 500) = "Hazardous" := by
  refine ⟨rfl, ?_, ?_, ?_, ?_, ?_, ?_,
    by norm_num [pm25_to_category], by norm_num [pm25_to_category],
    by norm_num [pm25_to_category]⟩ <;>
  · intros
    simp only [pm25_to_category]
    split_ifs <;> first | rfl | linarith

/-- Witness for C8 at the band boundary 12.1. -/
theorem pm25_category_bands_witness :
    (12 : ℚ) < 12.1 ∧ (12.1 : ℚ) ≤ 35.4
    ∧ pm25_to_category (some 12.1) = "Moderate" :=
  ⟨by norm_num, by norm_num,
    (pm25_category_bands 12.1).2.2.1 (by norm_num) (by norm_num)⟩

/-- C9: the rainfall labelling uses the half-open bands below 0.2 (No),
0.2 to 5 (Mid), 5 to 20 (High), and at least 20 (Confirm); in particular
0.19 is No, 0.2 is Mid, 19.99 is High and 20 is Confirm. -/
theorem rainfall_scale_bands (mm : ℚ) :
    (mm < 0.2 → rainfall_scale mm = "No")
    ∧ (0.2 ≤ mm → mm < 5 → rainfall_scale mm = "Mid")
    ∧ (5 ≤ mm → mm < 20 → rainfall_scale mm = "High")
    ∧ (20 ≤ mm → rainfall_scale mm = "Confirm 99%")
    ∧ rainfall_scale 0.19 = "No"
    ∧ rainfall_scale 0.2 = "Mid"
    ∧ rainfall_scale 19.99 = "High"
    ∧ rainfall_scale 20 = "Confirm 99%" := by
  refine ⟨?_, ?_, ?_, ?_,
    by norm_num [rainfall_scale], by norm_num [rainfall_scale],
    by norm_num [rainfall_scale], by norm_num [rainfall_scale]⟩ <;>
  · intros
    unfold rainfall_scale
    split_ifs <;> first | rfl | linarith

/-- Witness for C9 at the band boundary 0.2. -/
theorem rainfall_scale_bands_witness :
    (0.2 : ℚ) ≤ 0.2 ∧ (0.2 : ℚ) < 5 ∧ rainfall_scale 0.2 = "Mid" :=
  ⟨by norm_num, by norm_num,
    (rainfall_scale_bands 0.2).2.1 (by norm_num) (by norm_num)⟩

/-- C2 counterexample: calling compute_landslide_score with a null
pressure drop does not return normally: the comparison with 0 raises a
TypeError, so the result differs from passing 0 for that argument. -/
theorem landslide_null_pressure_cex :
    compute_landslide_score_py (some 80) none 2000 =
        Except.error "TypeError: unorderable types NoneType and int"
    ∧ (compute_landslide_score_py (some 80) none 2000).toOption = none
    ∧ compute_landslide_score_py (some 80) none 2000 ≠
        compute_landslide_score_py (some 80) (some 0) 2000 :=
  ⟨rfl, rfl, fun h => Except.noConfusion h⟩

/-- C2 amended: a null humidity contributes 0 and the call returns
normally with the same result as passing 0, but a null pressure drop
raises a TypeError instead of being treated as a 0 contribution. -/
theorem landslide_null_inputs :
    (∀ p e : ℚ,
        compute_landslide_score_py none (some p) e =
          compute_landslide_score_py (some 0) (some p) e
        ∧ ∃ r, compute_landslide_score_py none (some p) e = Except.ok r)
    ∧ ∀ (hum : Option ℚ) (e : ℚ),
        ∃ msg, compute_landslide_score_py hum none e = Except.error msg :=
  ⟨fun _ _ => ⟨rfl, ⟨_, rfl⟩⟩, fun _ _ => ⟨_, rfl⟩⟩

/-- C10: with the default elevation 2000, the elevation term contributes
exactly 15 and the other terms are non-negative, so the returned score is
always at least 15; hence a successfully processed point (error absent)
never carries a score below 15, and in particular never 0. -/
theorem landslide_min_score_default_elev :
    (∀ h p : ℚ, 15 ≤ (compute_landslide_score h p 2000).1)
    ∧ ∀ (nowKey : String) (b : String × ℚ × ℚ)
        (wres : Except String Hourly) (ares : Except String AqHourly),
        (processPoint nowKey b wres ares).error = none →
          15 ≤ (processPoint nowKey b wres ares).landslide_score := by
  refine ⟨landslide_score_15_le, ?_⟩
  intro nowKey b wres ares
  cases wres with
  | error e =>
    intro herr
    simp [processPoint, placeholder] at herr
  | ok hourly =>
    simp only [processPoint]
    repeat' split
    all_goals intro herr
    all_goals
      first
        | exact landslide_score_15_le _ _
        | simp [placeholder] at herr

/-- Witness for C10: a concrete successfully processed point has a score
of at least 15. -/
theorem landslide_min_score_default_elev_witness :
    (processPoint "K" ("B", 3, 4) (Except.ok cOkHourly) (Except.error "aq down")).error = none
    ∧ 15 ≤ (processPoint "K" ("B", 3, 4) (Except.ok cOkHourly)
        (Except.error "aq down")).landslide_score :=
  ⟨by decide,
    landslide_min_score_default_elev.2 "K" ("B", 3, 4) (Except.ok cOkHourly)
      (Except.error "aq down") (by decide)⟩

theorem teesta_primary_some (primary : Except Unit TSResp)
    (pyfloat : String → Except Unit ℚ) (v : ℚ)
    (hv : primaryNumeric primary pyfloat = some v) (sec : Except Unit String) :
    fetch_teesta_level primary pyfloat sec =
      (some v, some "cm (ThingSpeak)", teestaStatusOf v) := by
  revert hv
  simp only [primaryNumeric, fetch_teesta_level]
  repeat' split
  all_goals intro hv
  all_goals
    first
      | (injection hv with hwv; subst hwv; rfl)
      | simp at hv

theorem teesta_primary_none (primary : Except Unit TSResp)
    (pyfloat : String → Except Unit ℚ)
    (hn : primaryNumeric primary pyfloat = none) (sec : Except Unit String) :
    fetch_teesta_level primary pyfloat sec =
      (match sec with
       | Except.ok text =>
         if cwcMentionsTeesta text then (none, some "CWC FFS mention", "SEE_CWC")
         else (none, none, "NO_PUBLIC_RIVER_DATA")
       | Except.error _ => (none, none, "NO_PUBLIC_RIVER_DATA")) := by
  revert hn
  simp only [primaryNumeric, fetch_teesta_level]
  repeat' split
  all_goals intro hn
  all_goals first | rfl | simp at hn

/-- C4: the river probe. When the primary ThingSpeak step yields a numeric
value, the result is that value with a status derived solely from it by
the bands (above 400 flood warning, above 300 up to 400 high, below 100
low, otherwise normal) and the secondary source is never consulted (the
result is the same for every secondary outcome). When the primary step
fails or yields no numeric value, the result depends on the secondary
step: a page mentioning the river case-insensitively gives the see-CWC
status with a null value, anything else (including a raised request)
gives no-data with a null value. Every error is swallowed: the probe is a
total function returning exactly one reading. -/
theorem teesta_fallback_chain (primary : Except Unit TSResp)
    (pyfloat : String → Except Unit ℚ) (secondary : Except Unit String) :
    (∀ v, primaryNumeric primary pyfloat = some v →
      (∀ sec : Except Unit String,
        fetch_teesta_level primary pyfloat sec =
          (some v, some "cm (ThingSpeak)", teestaStatusOf v))
      ∧ (400 < v → teestaStatusOf v = "FLOOD WARNING")
      ∧ (300 < v → v ≤ 400 → teestaStatusOf v = "HIGH")
      ∧ (v < 100 → teestaStatusOf v = "LOW")
      ∧ (100 ≤ v → v ≤ 300 → teestaStatusOf v = "NORMAL"))
    ∧ (primaryNumeric primary pyfloat = none →
      (secondaryMentions secondary = true →
        fetch_teesta_level primary pyfloat secondary =
          (none, some "CWC FFS mention", "SEE_CWC"))
      ∧ (secondaryMentions secondary = false →
        fetch_teesta_level primary pyfloat secondary =
          (none, none, "NO_PUBLIC_RIVER_DATA"))) := by
  constructor
  · intro v hv
    refine ⟨teesta_primary_some primary pyfloat v hv, ?_, ?_, ?_, ?_⟩ <;>
    · intros
      simp only [teestaStatusOf]
      split_ifs <;> first | rfl | linarith
  · intro hn
    constructor
    · intro hm
      rw [teesta_primary_none primary pyfloat hn secondary]
      cases secondary with
      | ok text =>
        simp only [secondaryMentions] at hm
        simp [hm]
      | error u => simp [secondaryMentions] at hm
    · intro hm
      rw [teesta_primary_none primary pyfloat hn secondary]
      cases secondary with
      | ok text =>
        simp only [secondaryMentions] at hm
        simp [hm]
      | error u => rfl

/-- Witness for C4: a concrete numeric primary feed of 450 classifies as a
flood warning regardless of the secondary page. -/
theorem teesta_fallback_chain_witness :
    fetch_teesta_level (Except.ok ⟨200, [⟨some "450"⟩]⟩)
        (fun _ => Except.ok 450) (Except.ok "no river info") =
      (some 450, some "cm (ThingSpeak)", "FLOOD WARNING")
    ∧ (400 : ℚ) < 450 := by
  have h := (teesta_fallback_chain (Except.ok ⟨200, [⟨some "450"⟩]⟩)
      (fun _ => Except.ok 450) (Except.ok "no river info")).1 450
      (by simp [primaryNumeric])
  refine ⟨?_, by norm_num⟩
  rw [h.1 (Except.ok "no river info"), h.2.1 (by norm_num)]

/-- C1: if the weather fetch of exactly one registry point raises while
every other point processes without error, gather_bubble_data still
returns one entry per registry point in registry order (each entry being
the independent per-point result), the failing point gets the placeholder
entry carrying the error description and the neutral hazard default
(score 0, label no, AQI category N/A), and every other entry carries its
valid data with no error set. -/
theorem gather_single_point_failure
    (nowKey : String) (bubbles : List (String × ℚ × ℚ))
    (wf : String × ℚ × ℚ → Except String Hourly)
    (af : String × ℚ × ℚ → Except String AqHourly)
    (k : Nat) (b : String × ℚ × ℚ) (e : String)
    (hkb : bubbles[k]? = some b)
    (hfail : wf b = Except.error e)
    (hok : ∀ j c, bubbles[j]? = some c → j ≠ k →
      (processPoint nowKey c (wf c) (af c)).error = none) :
    (gather_bubble_data nowKey bubbles wf af).length = bubbles.length
    ∧ (∀ (j : Nat) (c : String × ℚ × ℚ), bubbles[j]? = some c →
        (gather_bubble_data nowKey bubbles wf af)[j]? =
          some (processPoint nowKey c (wf c) (af c)))
    ∧ (gather_bubble_data nowKey bubbles wf af)[k]? = some (placeholder b e)
    ∧ (placeholder b e).error = some e
    ∧ (placeholder b e).landslide_score = 0
    ∧ (placeholder b e).landslide_label = "no"
    ∧ (placeholder b e).aqi_category = "N/A"
    ∧ ∀ (j : Nat) (c : String × ℚ × ℚ), bubbles[j]? = some c → j ≠ k →
        ((gather_bubble_data nowKey bubbles wf af)[j]?.map BubbleResult.error) =
          some none := by
  refine ⟨?_, ?_, ?_, rfl, rfl, rfl, rfl, ?_⟩
  · simp [gather_bubble_data]
  · intro j c hj
    simp [gather_bubble_data, List.getElem?_map, hj]
  · simp [gather_bubble_data, List.getElem?_map, hkb, processPoint, hfail]
  · intro j c hj hne
    simp [gather_bubble_data, List.getElem?_map, hj]
    exact hok j c hj hne

/-- Witness for C1: a two-point registry where the weather fetch of the
first point raises yields two entries in order, the first being the
placeholder with the error description and neutral defaults, the second
its valid result. -/
theorem gather_single_point_failure_witness :
    (gather_bubble_data "K" cBubbles cWf cAf).length = cBubbles.length
    ∧ (gather_bubble_data "K" cBubbles cWf cAf)[0]? =
        some (placeholder ("A", 1, 2) "boom")
    ∧ (placeholder (("A" : String), (1 : ℚ), (2 : ℚ)) "boom").error = some "boom"
    ∧ (placeholder (("A" : String), (1 : ℚ), (2 : ℚ)) "boom").landslide_score = 0
    ∧ (placeholder (("A" : String), (1 : ℚ), (2 : ℚ)) "boom").landslide_label = "no"
    ∧ (placeholder (("A" : String), (1 : ℚ), (2 : ℚ)) "boom").aqi_category = "N/A"
    ∧ (gather_bubble_data "K" cBubbles cWf cAf)[1]? =
        some (processPoint "K" ("B", 3, 4) (cWf ("B", 3, 4)) (cAf ("B", 3, 4)))
    ∧ ((gather_bubble_data "K" cBubbles cWf cAf)[1]?.map BubbleResult.error) =
        some none := by
  have h := gather_single_point_failure "K" cBubbles cWf cAf 0 ("A", 1, 2) "boom"
    (by rfl) (by simp [cWf]) ?hok
  case hok =>
    intro j c hj hne
    cases j with
    | zero => exact absurd rfl hne
    | succ j =>
      cases j with
      | zero =>
        simp only [cBubbles] at hj
        injection hj with hj
        subst hj
        decide
      | succ j => simp [cBubbles] at hj
  exact ⟨h.1, h.2.2.1, h.2.2.2.1, h.2.2.2.2.1, h.2.2.2.2.2.1, h.2.2.2.2.2.2.1,
    h.2.1 1 ("B", 3, 4) (by rfl),
    h.2.2.2.2.2.2.2 1 ("B", 3, 4) (by rfl) (by omega)⟩

/-- C3 counterexample: with the current-hour key at index 3 and a pressure
value of exactly 0.0 three hours earlier, the code reports a pressure
drop of 0 (the Python truthiness guard treats the 0.0 reading as absent)
rather than the claimed pressure at index 0 minus pressure at index 3,
which is -995 here. -/
theorem derived_fields_zero_pressure_cex :
    alignIdx ["t0", "t1", "t2", "K"] "K" = 3
    ∧ (processPoint "K" ("Teesta Bazaar", 0, 0)
        (Except.ok ⟨["t0", "t1", "t2", "K"], [1, 1, 1, 2], [70, 70, 70, 70],
          [0, 1000, 1000, 995], [10, 10, 10, 10]⟩)
        (Except.error "aq down")).pressure_drop_3h = 0
    ∧ ((0 : ℚ) - 995 ≠ (0 : ℚ)) := by
  refine ⟨by decide, by decide, by norm_num⟩

/-- C3 amended: for a weather response and the aligned index, precip_now
is the precipitation at the index; precip_next_hour is the precipitation
at the next index if present, else 0; and the three-hour pressure drop is
pressure at index minus 3 less pressure at index when the index is at
least 3 and the earlier pressure reading is nonzero, else 0 (a reading of
exactly 0.0 is treated as absent by the truthiness guard); no
negative-index wrap is used (index below 3 always gives 0). -/
theorem derived_fields_amended
    (nowKey n : String) (la lo : ℚ) (hourly : Hourly) (ares : Except String AqHourly)
    (pn hu pr tm : ℚ)
    (hpn : hourly.precipitation[alignIdx hourly.time nowKey]? = some pn)
    (hhu : hourly.relativehumidity_2m[alignIdx hourly.time nowKey]? = some hu)
    (hpr : hourly.pressure_msl[alignIdx hourly.time nowKey]? = some pr)
    (htm : hourly.temperature_2m[alignIdx hourly.time nowKey]? = some tm) :
    (processPoint nowKey (n, la, lo) (Except.ok hourly) ares).precip_now = pn
    ∧ (processPoint nowKey (n, la, lo) (Except.ok hourly) ares).precip_next1 =
        (if alignIdx hourly.time nowKey + 1 < hourly.precipitation.length
         then hourly.precipitation.getD (alignIdx hourly.time nowKey + 1) 0 else 0)
    ∧ (alignIdx hourly.time nowKey < 3 →
        (processPoint nowKey (n, la, lo) (Except.ok hourly) ares).pressure_drop_3h = 0)
    ∧ ∀ pv, 3 ≤ alignIdx hourly.time nowKey →
        hourly.pressure_msl[alignIdx hourly.time nowKey - 3]? = some pv →
        (processPoint nowKey (n, la, lo) (Except.ok hourly) ares).pressure_drop_3h =
          (if pv ≠ 0 then pv - pr else 0) := by
  by_cases h3 : 3 ≤ alignIdx hourly.time nowKey
  · have hlen : alignIdx hourly.time nowKey < hourly.pressure_msl.length :=
      (List.getElem?_eq_some.mp hpr).1
    have hlen3 : alignIdx hourly.time nowKey - 3 < hourly.pressure_msl.length :=
      lt_of_le_of_lt (Nat.sub_le _ 3) hlen
    obtain ⟨pv0, hpv0⟩ : ∃ x, hourly.pressure_msl[alignIdx hourly.time nowKey - 3]? = some x :=
      ⟨_, List.getElem?_eq_getElem hlen3⟩
    simp only [processPoint, hpn, hhu, hpr, htm, if_pos h3, hpv0]
    refine ⟨?_, ?_, ?_, ?_⟩
    · first | trivial | rfl
    · first | trivial | rfl
    · intro hlt
      exact absurd h3 (by omega)
    · intro pv h3x hpv
      first
        | (injection hpv with hpv; subst hpv; first | rfl | (split_ifs <;> rfl) | simp)
        | (rw [hpv0] at hpv; injection hpv with hpv; subst hpv;
           first | rfl | (split_ifs <;> rfl) | simp)
  · simp only [processPoint, hpn, hhu, hpr, htm, if_neg h3]
    refine ⟨?_, ?_, ?_, ?_⟩
    · first | trivial | rfl
    · first | trivial | rfl
    · intro hlt
      first | trivial | rfl
    · intro pv h3x hpv
      exact absurd h3x h3

/-- Witness for C3 amended: a concrete response with the key at index 3
and a nonzero earlier pressure reading of 1000 against a current 995
yields the claimed derived fields, including a pressure drop of 5. -/
theorem derived_fields_amended_witness :
    (processPoint "K" ("X", 0, 0) (Except.ok cAmendHourly)
        (Except.error "aq down")).precip_now = 2
    ∧ (processPoint "K" ("X", 0, 0) (Except.ok cAmendHourly)
        (Except.error "aq down")).pressure_drop_3h =
      (if (1000 : ℚ) ≠ 0 then 1000 - 995 else 0) := by
  have h := derived_fields_amended "K" "X" 0 0 cAmendHourly (Except.error "aq down")
    2 70 995 10 (by decide) (by decide) (by decide) (by decide)
  exact ⟨h.1, h.2.2.2 1000 (by decide) (by decide)⟩

end DarjHazard
